import Mathlib

/-!
Verification of the synthetic firewall-log traffic generator (tester.py).

The embedding models the core of the generator:
* the record formatters (`make_gaia_drop_log`, `make_gaia_accept_log`,
  `make_cef_drop_log`, `make_cef_allow_log`, `make_log`);
* the dispatch layer (`send_udp`, `send_udp_coalesced`);
* the scenario runners (`test_fast_scan`, `test_slow_scan`,
  `test_cef_normal`, `test_normal_traffic`) and the composite mode of
  `main` (`run_all`).

Side effects are made explicit:
* the wall clock and the random-number generator are oracle functions
  passed in (`ts`, `sp`, `rt`, `rand`), indexed by how many draws the
  program has made;
* the UDP socket is an oracle `net : String → Option String` mapping a
  payload to `none` (the local transport accepted it) or `some e` (the
  send raised an exception with message `e`);
* console output from the dispatch layer is collected in a `console`
  field instead of being printed;
* `time.sleep` is modelled by `dispatch_loop`: completed sleeps are
  recorded, and a negative argument reproduces CPython's
  `ValueError: sleep length must be non-negative`, which aborts the
  dispatch loop after the first send and propagates out of the scenario.
-/

/-- Constant from tester.py. -/
def DEFAULT_SRC_IP : String := "192.168.11.7"

/-- Constant from tester.py. -/
def FW_IP : String := "192.168.99.1"

/-- The curated candidate pool of commonly targeted ports (tester.py). -/
def COMMON_PORTS : List Nat :=
  [21, 22, 23, 25, 53, 80, 110, 135, 139, 143, 443, 445, 993,
   995, 1433, 1521, 3306, 3389, 5432, 5900, 6379, 8080, 8443,
   8888, 9090, 9200, 27017, 27018, 4444, 4445, 6666, 7777,
   2222, 2121, 3000, 4000, 5000, 5001, 7000, 8000, 9000, 9001]

/-- Gaia raw `drop` record.  `ts` is the value of
`datetime.now().strftime("%b %d %H:%M:%S")` and `src_port` the value of
`random.randint(1024, 65535)` at this call. -/
def make_gaia_drop_log (ts : String) (src_port : Nat) (src_ip : String)
    (dst_port : Nat) (fw_ip : String := FW_IP) : String :=
  ts ++ " " ++ fw_ip ++ " Checkpoint: drop " ++ src_ip ++
    " proto: tcp; service: " ++ Nat.repr dst_port ++ "; s_port: " ++ Nat.repr src_port

/-- Gaia raw `accept` record. -/
def make_gaia_accept_log (ts : String) (src_port : Nat) (src_ip : String)
    (dst_port : Nat) (fw_ip : String := FW_IP) : String :=
  ts ++ " " ++ fw_ip ++ " Checkpoint: accept " ++ src_ip ++
    " proto: tcp; service: " ++ Nat.repr dst_port ++ "; s_port: " ++ Nat.repr src_port

/-- CEF `drop` record with syslog prefix.  `rt` is the value of
`int(time.time() * 1000)` at this call. -/
def make_cef_drop_log (ts : String) (rt : Nat) (src_ip : String) (dst_port : Nat) : String :=
  ts ++ " firewall " ++
    "CEF:0|Checkpoint|VPN-1 & FireWall-1|NGX R65|firewall|" ++
    "Connection Blocked|7|" ++
    "src=" ++ src_ip ++ " dst=10.0.0.1 dpt=" ++ Nat.repr dst_port ++ " act=drop " ++
    "proto=TCP rt=" ++ Nat.repr rt

/-- CEF `Allow` record with syslog prefix. -/
def make_cef_allow_log (ts : String) (rt : Nat) (src_ip : String) (dst_port : Nat) : String :=
  ts ++ " firewall " ++
    "CEF:0|Checkpoint|VPN-1 & FireWall-1|NGX R65|firewall|" ++
    "Connection Allowed|3|" ++
    "src=" ++ src_ip ++ " dst=10.0.0.1 dpt=" ++ Nat.repr dst_port ++ " act=Allow " ++
    "proto=TCP rt=" ++ Nat.repr rt

/-- Factory `make_log(src_ip, dst_port, fmt, drop)`: picks the renderer from
the format string; any format other than `"cef"` takes the `else` branch
and renders a Gaia record. -/
def make_log (ts : String) (sp rt : Nat) (src_ip : String) (dst_port : Nat)
    (fmt : String) (drop : Bool := true) : String :=
  if fmt = "cef" then
    if drop then make_cef_drop_log ts rt src_ip dst_port
    else make_cef_allow_log ts rt src_ip dst_port
  else
    if drop then make_gaia_drop_log ts sp src_ip dst_port
    else make_gaia_accept_log ts sp src_ip dst_port

/-- Result of one dispatch call: the boolean the function returns, the
payloads handed to the transport, and the console lines it printed. -/
structure SendOutcome where
  ok : Bool
  sends : List String
  console : List String
  deriving Repr, DecidableEq

/-- Python `message[:110] + ("..." if len(message) > 110 else "")`. -/
def preview (message : String) : String :=
  String.take message 110 ++ (if 110 < message.length then "..." else "")

/-- Dispatch function `send_udp`: appends the line terminator, transmits one datagram; an
exception is caught, printed, and turned into `False`. -/
def send_udp (net : String → Option String) (host : String) (port : Nat)
    (message : String) (verbose : Bool := false) : SendOutcome :=
  let encoded := message ++ "\n"
  match net encoded with
  | none =>
      { ok := true
        sends := [encoded]
        console := if verbose then ["    [SENT] " ++ preview message] else [] }
  | some e =>
      { ok := false
        sends := []
        console := ["    [ERROR] " ++ host ++ ":" ++ Nat.repr port ++ " -> " ++ e] }

/-- Python `"\n".join messages` (specialised to the newline separator). -/
def joinNl : List String → String
  | [] => ""
  | [m] => m
  | m :: m2 :: rest => m ++ "\n" ++ joinNl (m2 :: rest)

/-- Dispatch function `send_udp_coalesced`: joins all records with the line terminator, adds a
trailing terminator and transmits the result as one datagram. -/
def send_udp_coalesced (net : String → Option String) (host : String) (port : Nat)
    (messages : List String) (verbose : Bool := false) : SendOutcome :=
  let combined := joinNl messages ++ "\n"
  match net combined with
  | none =>
      { ok := true
        sends := [combined]
        console :=
          if verbose then
            ["    [COALESCED] " ++ Nat.repr messages.length ++
              " log-uri => 1 pachet UDP (" ++ Nat.repr combined.length ++ " bytes)"]
          else [] }
  | some e =>
      { ok := false
        sends := []
        console := ["    [ERROR] " ++ e] }

/-- C4: for every fixed source IP, destination port (and, for the native
format, appliance IP), two renderings of the same event differ only in the
time-derived tokens (the syslog timestamp, and for CEF also the `rt`
receipt-time token) and, for the native format, the random ephemeral source
port: the whole remaining middle of the line is one fixed string shared by
the two renderings, so vendor, host token, action keyword, destination port
and marker are byte-identical. -/
theorem render_static_tokens (src_ip : String) (dst_port : Nat) (fw_ip : String) :
    (∃ mid, ∀ ts sp, make_gaia_drop_log ts sp src_ip dst_port fw_ip =
      ts ++ mid ++ Nat.repr sp) ∧
    (∃ mid, ∀ ts sp, make_gaia_accept_log ts sp src_ip dst_port fw_ip =
      ts ++ mid ++ Nat.repr sp) ∧
    (∃ mid, ∀ ts rt, make_cef_drop_log ts rt src_ip dst_port =
      ts ++ mid ++ Nat.repr rt) ∧
    (∃ mid, ∀ ts rt, make_cef_allow_log ts rt src_ip dst_port =
      ts ++ mid ++ Nat.repr rt) := by
  refine ⟨⟨" " ++ fw_ip ++ " Checkpoint: drop " ++ src_ip ++
      " proto: tcp; service: " ++ Nat.repr dst_port ++ "; s_port: ", ?_⟩,
    ⟨" " ++ fw_ip ++ " Checkpoint: accept " ++ src_ip ++
      " proto: tcp; service: " ++ Nat.repr dst_port ++ "; s_port: ", ?_⟩,
    ⟨" firewall " ++ "CEF:0|Checkpoint|VPN-1 & FireWall-1|NGX R65|firewall|" ++
      "Connection Blocked|7|" ++ "src=" ++ src_ip ++ " dst=10.0.0.1 dpt=" ++
      Nat.repr dst_port ++ " act=drop " ++ "proto=TCP rt=", ?_⟩,
    ⟨" firewall " ++ "CEF:0|Checkpoint|VPN-1 & FireWall-1|NGX R65|firewall|" ++
      "Connection Allowed|3|" ++ "src=" ++ src_ip ++ " dst=10.0.0.1 dpt=" ++
      Nat.repr dst_port ++ " act=Allow " ++ "proto=TCP rt=", ?_⟩⟩ <;>
    intro ts x <;>
    simp only [make_gaia_drop_log, make_gaia_accept_log, make_cef_drop_log,
      make_cef_allow_log, String.append_assoc]

/-- C9: the `verbose` flag changes neither the payloads handed to the
transport nor the boolean result, for both dispatch entry points; it only
controls console echo. -/
theorem verbose_noninterference (net : String → Option String) (host : String)
    (port : Nat) (message : String) (messages : List String) :
    ((send_udp net host port message true).sends =
        (send_udp net host port message false).sends ∧
      (send_udp net host port message true).ok =
        (send_udp net host port message false).ok) ∧
    ((send_udp_coalesced net host port messages true).sends =
        (send_udp_coalesced net host port messages false).sends ∧
      (send_udp_coalesced net host port messages true).ok =
        (send_udp_coalesced net host port messages false).ok) := by
  refine ⟨?_, ?_⟩
  · unfold send_udp
    cases h : net (message ++ "\n") <;> simp [h]
  · unfold send_udp_coalesced
    cases h : net (joinNl messages ++ "\n") <;> simp [h]

/-- Character-level model of Python `str.split(sep)` for a one-character
separator, applied to the decoded payload by the downstream consumer. -/
def splitCh (sep : Char) : List Char → List (List Char)
  | [] => [[]]
  | c :: cs =>
    if c = sep then [] :: splitCh sep cs
    else
      match splitCh sep cs with
      | [] => [[c]]
      | l :: ls => (c :: l) :: ls

theorem splitCh_nil (sep : Char) : splitCh sep [] = [[]] := rfl

theorem splitCh_append_sep (sep : Char) (xs rest : List Char) (h : sep ∉ xs) :
    splitCh sep (xs ++ sep :: rest) = xs :: splitCh sep rest := by
  induction xs with
  | nil => simp [splitCh]
  | cons c cs ih =>
    have hc : ¬ c = sep := fun hh => h (hh ▸ List.mem_cons_self c cs)
    have h' : sep ∉ cs := fun hm => h (List.mem_cons_of_mem _ hm)
    simp only [List.cons_append, splitCh, if_neg hc]
    have ih2 : splitCh sep (List.append cs (sep :: rest)) = cs :: splitCh sep rest := ih h'
    rw [ih2]

theorem String_mk_data (s : String) : String.mk s.data = s := rfl

theorem splitCh_joinNl (msgs : List String) (hne : msgs ≠ [])
    (hnl : ∀ m ∈ msgs, '\n' ∉ m.data) :
    splitCh '\n' ((joinNl msgs ++ "\n").data) = msgs.map String.data ++ [[]] := by
  induction msgs with
  | nil => exact absurd rfl hne
  | cons m rest ih =>
    have hm : '\n' ∉ m.data := hnl m (List.mem_cons_self m rest)
    cases rest with
    | nil =>
      have hdata : (joinNl [m] ++ "\n").data = m.data ++ '\n' :: ([] : List Char) := by
        show (m ++ "\n").data = _
        rw [String.data_append]
      rw [hdata, splitCh_append_sep _ _ _ hm]
      rfl
    | cons m2 rest2 =>
      have hnlc : "\n".data = ['\n'] := rfl
      have hdata : (joinNl (m :: m2 :: rest2) ++ "\n").data
          = m.data ++ '\n' :: ((joinNl (m2 :: rest2) ++ "\n").data) := by
        show ((m ++ "\n" ++ joinNl (m2 :: rest2)) ++ "\n").data = _
        simp [String.data_append, hnlc, List.append_assoc]
      rw [hdata, splitCh_append_sep _ _ _ hm,
        ih (by simp) (fun x hx => hnl x (List.mem_cons_of_mem _ hx))]
      simp

theorem map_mk_map_data (msgs : List String) :
    (msgs.map String.data).map String.mk = msgs := by
  induction msgs with
  | nil => rfl
  | cons m rest ih => simp [ih, String_mk_data]

/-- C1: for a non-empty list of rendered records, none of which contains the
line terminator, coalesced dispatch hands exactly one payload to the
transport, equal to the records joined by the newline character with a
trailing newline (so in input order), and splitting that payload on the
line terminator yields the original records followed by the empty remainder
after the trailing terminator; dropping that remainder recovers exactly the
original records. -/
theorem coalesced_roundtrip (net : String → Option String) (host : String)
    (port : Nat) (msgs : List String) (verbose : Bool)
    (hne : msgs ≠ []) (hnl : ∀ m ∈ msgs, '\n' ∉ m.data)
    (hnet : net (joinNl msgs ++ "\n") = none) :
    (send_udp_coalesced net host port msgs verbose).sends = [joinNl msgs ++ "\n"] ∧
    (send_udp_coalesced net host port msgs verbose).sends.length = 1 ∧
    splitCh '\n' ((joinNl msgs ++ "\n").data) = msgs.map String.data ++ [[]] ∧
    ((splitCh '\n' ((joinNl msgs ++ "\n").data)).dropLast).map String.mk = msgs := by
  refine ⟨?_, ?_, splitCh_joinNl msgs hne hnl, ?_⟩
  · simp [send_udp_coalesced, hnet]
  · simp [send_udp_coalesced, hnet]
  · rw [splitCh_joinNl msgs hne hnl, List.dropLast_concat]
    exact map_mk_map_data msgs

theorem coalesced_roundtrip_witness :
    (send_udp_coalesced (fun _ => none) "127.0.0.1" 5555 ["rec1", "rec2"] false).sends
        = [joinNl ["rec1", "rec2"] ++ "\n"] ∧
    (send_udp_coalesced (fun _ => none) "127.0.0.1" 5555 ["rec1", "rec2"] false).sends.length
        = 1 ∧
    splitCh '\n' ((joinNl ["rec1", "rec2"] ++ "\n").data)
        = ["rec1", "rec2"].map String.data ++ [[]] ∧
    ((splitCh '\n' ((joinNl ["rec1", "rec2"] ++ "\n").data)).dropLast).map String.mk
        = ["rec1", "rec2"] :=
  coalesced_roundtrip (fun _ => none) "127.0.0.1" 5555 ["rec1", "rec2"] false
    (by simp) (by decide) rfl

/-- C10: coalesced dispatch of the empty record list still hands exactly one
payload to the transport, the single newline character, and returns success
when the local transport accepts it. -/
theorem coalesced_empty (net : String → Option String) (host : String)
    (port : Nat) (verbose : Bool) (hnet : net "\n" = none) :
    (send_udp_coalesced net host port [] verbose).sends = ["\n"] ∧
    (send_udp_coalesced net host port [] verbose).sends.length = 1 ∧
    (send_udp_coalesced net host port [] verbose).ok = true := by
  have hj : joinNl [] ++ "\n" = "\n" := rfl
  simp [send_udp_coalesced, hj, hnet]

theorem coalesced_empty_witness :
    (send_udp_coalesced (fun _ => none) "127.0.0.1" 5555 [] true).sends = ["\n"] ∧
    (send_udp_coalesced (fun _ => none) "127.0.0.1" 5555 [] true).sends.length = 1 ∧
    (send_udp_coalesced (fun _ => none) "127.0.0.1" 5555 [] true).ok = true :=
  coalesced_empty (fun _ => none) "127.0.0.1" 5555 true rfl

/-- Model of `random.sample(population, k)`: `k` draws without replacement,
each draw removing the element whose index the random oracle selects among
the remaining population.  `rand n` is the n-th value drawn from the
generator; taking it modulo the current population size makes every oracle
a valid index choice. -/
def randomSample (rand : Nat → Nat) : Nat → Nat → List Nat → List Nat
  | _, 0, _ => []
  | _, _ + 1, [] => []
  | i, k + 1, p :: ps =>
    let pop := p :: ps
    let idx := rand i % pop.length
    pop.getD idx 0 :: randomSample rand (i + 1) k (pop.take idx ++ pop.drop (idx + 1))

theorem randomSample_length (rand : Nat → Nat) :
    ∀ k i (pop : List Nat), (randomSample rand i k pop).length = min k pop.length := by
  intro k
  induction k with
  | zero => intro i pop; simp [randomSample]
  | succ k ih =>
    intro i pop
    cases pop with
    | nil => simp [randomSample]
    | cons p ps =>
      have hidx : rand i % (p :: ps).length < (p :: ps).length :=
        Nat.mod_lt _ (by simp)
      simp only [randomSample, List.length_cons, ih, List.length_append,
        List.length_take, List.length_drop]
      simp only [List.length_cons] at hidx
      omega

theorem randomSample_subset (rand : Nat → Nat) :
    ∀ k i (pop : List Nat), ∀ x ∈ randomSample rand i k pop, x ∈ pop := by
  intro k
  induction k with
  | zero => intro i pop x hx; simp [randomSample] at hx
  | succ k ih =>
    intro i pop x hx
    cases pop with
    | nil => simp [randomSample] at hx
    | cons p ps =>
      have hidx : rand i % (p :: ps).length < (p :: ps).length :=
        Nat.mod_lt _ (by simp)
      simp only [randomSample] at hx
      rcases List.mem_cons.mp hx with h | h
      · rw [h, List.getD_eq_getElem _ _ hidx]
        exact List.getElem_mem hidx
      · rcases List.mem_append.mp (ih _ _ _ h) with h2 | h2
        · exact List.take_subset _ _ h2
        · exact List.drop_subset _ _ h2

theorem randomSample_nodup (rand : Nat → Nat) :
    ∀ k i (pop : List Nat), pop.Nodup → (randomSample rand i k pop).Nodup := by
  intro k
  induction k with
  | zero => intro i pop _; simp [randomSample]
  | succ k ih =>
    intro i pop hnd
    cases pop with
    | nil => simp [randomSample]
    | cons p ps =>
      have hidx : rand i % (p :: ps).length < (p :: ps).length :=
        Nat.mod_lt _ (by simp)
      have hsplit : p :: ps = (p :: ps).take (rand i % (p :: ps).length) ++
          (p :: ps)[rand i % (p :: ps).length] ::
            (p :: ps).drop (rand i % (p :: ps).length + 1) := by
        rw [← List.drop_eq_getElem_cons hidx, List.take_append_drop]
      have hmid := List.nodup_middle.mp (hsplit ▸ hnd)
      obtain ⟨hnotmem, hrest⟩ := List.nodup_cons.mp hmid
      simp only [randomSample]
      rw [List.getD_eq_getElem _ _ hidx, List.nodup_cons]
      exact ⟨fun hmem => hnotmem (randomSample_subset rand k (i + 1) _ _ hmem),
        ih _ _ hrest⟩

/-- A scenario tag, used to record which sub-scenario the composite mode ran. -/
inductive ScenTag where
  | normal
  | cefNormal
  | fastScan
  deriving DecidableEq, Repr

/-- What one scenario run did: the chosen destination ports, rendered
records, payloads handed to the transport (in order), per-dispatch boolean
results, the sleeps that completed, for the scenarios that count successes
the final sent/attempted summary the scenario reports (`none` when the run
aborted before reporting it, or when the scenario does not count), and the
uncaught exception, if any, that propagated out of the scenario. -/
structure ScenarioResult where
  ports : List Nat
  logs : List String
  sends : List String
  results : List Bool
  sleeps : List Rat
  summary : Option (Nat × Nat)
  error : Option String
  deriving Repr, DecidableEq

/-- The non-coalesced dispatch loop the scenarios share: for each record,
one `send_udp` call (which catches its own transport errors and returns a
boolean), then `time.sleep(delay)`.  CPython's `time.sleep` raises
`ValueError: sleep length must be non-negative` for a negative argument, so
with a negative delay the loop aborts after the first send, the exception
propagating uncaught; the third component records that exception, `none`
meaning the loop ran to completion.  The second component lists the sleeps
that completed. -/
def dispatch_loop (net : String → Option String) (host : String) (port : Nat)
    (delay : Rat) (verbose : Bool) :
    List String → List SendOutcome × List Rat × Option String
  | [] => ([], [], none)
  | log :: rest =>
    let out := send_udp net host port log verbose
    if delay < 0 then
      ([out], [], some "ValueError: sleep length must be non-negative")
    else
      let r := dispatch_loop net host port delay verbose rest
      (out :: r.1, delay :: r.2.1, r.2.2)

/-- Scenario `test_fast_scan`: draw `min 20 len(COMMON_PORTS)` ports without
replacement, render one drop record per port, then either send one
coalesced datagram (no sleep on that path), or run the dispatch loop: one
datagram per record with `time.sleep(delay)` after each send.  A negative
delay makes the sleep raise `ValueError` after the first send (see
`dispatch_loop`), aborting the scenario before its summary; on normal
completion the summary counts successes out of attempts. -/
def test_fast_scan (net : String → Option String) (rand : Nat → Nat)
    (ts : Nat → String) (sp rt : Nat → Nat) (host : String) (port : Nat)
    (src_ip : String) (log_format : String) (delay : Rat)
    (coalesce verbose : Bool) : ScenarioResult :=
  let ports := randomSample rand 0 (min 20 COMMON_PORTS.length) COMMON_PORTS
  let logs := ports.enum.map fun ip =>
    make_log (ts ip.1) (sp ip.1) (rt ip.1) src_ip ip.2 log_format true
  match coalesce with
  | true =>
    let out := send_udp_coalesced net host port logs verbose
    let sent := if out.ok then logs.length else 0
    { ports := ports, logs := logs, sends := out.sends, results := [out.ok],
      sleeps := [], summary := some (sent, logs.length), error := none }
  | false =>
    let r := dispatch_loop net host port delay verbose logs
    { ports := ports, logs := logs,
      sends := (r.1.map fun o => o.sends).flatten,
      results := r.1.map fun o => o.ok,
      sleeps := r.2.1,
      summary :=
        match r.2.2 with
        | none => some ((r.1.filter fun o => o.ok).length, logs.length)
        | some _ => none,
      error := r.2.2 }

/-- Scenario `test_slow_scan`: 35 ports drawn without replacement from
`range(1, 65000)`, one drop record per port, sent individually with a
2-second sleep after each, reporting sent/35. -/
def test_slow_scan (net : String → Option String) (rand : Nat → Nat)
    (ts : Nat → String) (sp rt : Nat → Nat) (host : String) (port : Nat)
    (src_ip : String) (log_format : String) (verbose : Bool) : ScenarioResult :=
  let ports := randomSample rand 0 35 (List.range' 1 64999)
  let logs := ports.enum.map fun ip =>
    make_log (ts ip.1) (sp ip.1) (rt ip.1) src_ip ip.2 log_format true
  let r := dispatch_loop net host port 2 verbose logs
  { ports := ports, logs := logs,
    sends := (r.1.map fun o => o.sends).flatten,
    results := r.1.map fun o => o.ok,
    sleeps := r.2.1,
    summary :=
      match r.2.2 with
      | none => some ((r.1.filter fun o => o.ok).length, 35)
      | some _ => none,
    error := r.2.2 }

/-- Scenario `test_cef_normal`: four CEF Allow records on fixed common ports, sent
individually (`verbose=False` is passed to the dispatcher), 0.1-second
sleep after each; the function does not count successes. -/
def test_cef_normal (net : String → Option String) (ts : Nat → String)
    (rt : Nat → Nat) (host : String) (port : Nat) (src_ip : String)
    (verbose : Bool) : ScenarioResult :=
  let test_cases : List (Nat × String) :=
    [(80, "HTTP"), (443, "HTTPS"), (53, "DNS"), (25, "SMTP")]
  let ports := test_cases.map fun c => c.1
  let logs := ports.enum.map fun ip => make_cef_allow_log (ts ip.1) (rt ip.1) src_ip ip.2
  let r := dispatch_loop net host port (1 / 10) false logs
  { ports := ports, logs := logs,
    sends := (r.1.map fun o => o.sends).flatten,
    results := r.1.map fun o => o.ok,
    sleeps := r.2.1,
    summary := none,
    error := r.2.2 }

/-- Scenario `test_normal_traffic`: five drop records on fixed ports (below the
fast-scan threshold), sent individually with a 0.1-second sleep after each;
the function does not count successes. -/
def test_normal_traffic (net : String → Option String) (ts : Nat → String)
    (sp rt : Nat → Nat) (host : String) (port : Nat) (src_ip : String)
    (log_format : String) (verbose : Bool) : ScenarioResult :=
  let ports : List Nat := [22, 80, 443, 3306, 5432]
  let logs := ports.enum.map fun ip =>
    make_log (ts ip.1) (sp ip.1) (rt ip.1) src_ip ip.2 log_format true
  let r := dispatch_loop net host port (1 / 10) verbose logs
  { ports := ports, logs := logs,
    sends := (r.1.map fun o => o.sends).flatten,
    results := r.1.map fun o => o.ok,
    sleeps := r.2.1,
    summary := none,
    error := r.2.2 }

/-- The `--mode all` branch of `main`: run `test_normal_traffic` with source
identity `192.168.1.1`, then `test_cef_normal` with `192.168.1.2`, then
`test_fast_scan` with the caller-supplied identity `src_ip` (`args.ip`).
Each entry records the sub-scenario, the identity passed to it, and its run. -/
def run_all (net : String → Option String) (rand : Nat → Nat)
    (ts : Nat → String) (sp rt : Nat → Nat) (host : String) (port : Nat)
    (src_ip : String) (log_format : String) (delay : Rat)
    (coalesce verbose : Bool) : List (ScenTag × String × ScenarioResult) :=
  [(ScenTag.normal, "192.168.1.1",
      test_normal_traffic net ts sp rt host port "192.168.1.1" log_format verbose),
   (ScenTag.cefNormal, "192.168.1.2",
      test_cef_normal net ts rt host port "192.168.1.2" verbose),
   (ScenTag.fastScan, src_ip,
      test_fast_scan net rand ts sp rt host port src_ip log_format delay
        coalesce verbose)]

theorem send_udp_accept (net : String → Option String) (host : String)
    (port : Nat) (message : String) (v : Bool)
    (h : net (message ++ "\n") = none) :
    send_udp net host port message v =
      { ok := true, sends := [message ++ "\n"],
        console := if v then ["    [SENT] " ++ preview message] else [] } := by
  simp only [send_udp]
  rw [h]

theorem send_udp_coalesced_accept (net : String → Option String) (host : String)
    (port : Nat) (messages : List String) (v : Bool)
    (h : net (joinNl messages ++ "\n") = none) :
    send_udp_coalesced net host port messages v =
      { ok := true, sends := [joinNl messages ++ "\n"],
        console :=
          if v then
            ["    [COALESCED] " ++ Nat.repr messages.length ++
              " log-uri => 1 pachet UDP (" ++
              Nat.repr (joinNl messages ++ "\n").length ++ " bytes)"]
          else [] } := by
  simp only [send_udp_coalesced]
  rw [h]

theorem sends_flatten_accept (net : String → Option String) (host : String)
    (port : Nat) (v : Bool) (logs : List String)
    (hnet : ∀ p2, net p2 = none) :
    ((logs.map fun log => send_udp net host port log v).map fun o => o.sends).flatten
      = logs.map fun log => log ++ "\n" := by
  induction logs with
  | nil => rfl
  | cons l ls ih =>
    simp only [List.map_cons, List.flatten_cons,
      send_udp_accept net host port l v (hnet _), ih, List.singleton_append]

theorem test_fast_scan_ports (net : String → Option String) (rand : Nat → Nat)
    (ts : Nat → String) (sp rt : Nat → Nat) (host : String) (port : Nat)
    (src_ip log_format : String) (delay : Rat) (coalesce verbose : Bool) :
    (test_fast_scan net rand ts sp rt host port src_ip log_format delay
        coalesce verbose).ports
      = randomSample rand 0 (min 20 COMMON_PORTS.length) COMMON_PORTS := by
  cases coalesce <;> simp [test_fast_scan]

theorem fast_scan_sample_length (rand : Nat → Nat) :
    (randomSample rand 0 (min 20 COMMON_PORTS.length) COMMON_PORTS).length = 20 := by
  rw [randomSample_length]
  decide

theorem dispatch_loop_nonneg (net : String → Option String) (host : String)
    (port : Nat) (delay : Rat) (v : Bool) (hd : 0 ≤ delay) :
    ∀ logs : List String,
      dispatch_loop net host port delay v logs
        = (logs.map fun log => send_udp net host port log v,
           List.replicate logs.length delay, (none : Option String)) := by
  have hneg : ¬ delay < 0 := not_lt.mpr hd
  intro logs
  induction logs with
  | nil => rfl
  | cons l ls ih => simp [dispatch_loop, hneg, ih, List.replicate_succ]

theorem dispatch_loop_neg (net : String → Option String) (host : String)
    (port : Nat) (delay : Rat) (v : Bool) (hd : delay < 0)
    (log : String) (rest : List String) :
    dispatch_loop net host port delay v (log :: rest)
      = ([send_udp net host port log v], [],
         some "ValueError: sleep length must be non-negative") := by
  simp [dispatch_loop, hd]

theorem fast_scan_logs_cons (rand : Nat → Nat) (ts : Nat → String)
    (sp rt : Nat → Nat) (src_ip log_format : String) :
    ∃ l0 rest,
      (randomSample rand 0 (min 20 COMMON_PORTS.length) COMMON_PORTS).enum.map
        (fun ip => make_log (ts ip.1) (sp ip.1) (rt ip.1) src_ip ip.2 log_format true)
      = l0 :: rest := by
  have hl20 : ((randomSample rand 0 (min 20 COMMON_PORTS.length) COMMON_PORTS).enum.map
      (fun ip => make_log (ts ip.1) (sp ip.1) (rt ip.1) src_ip ip.2 log_format true)).length
      = 20 := by
    rw [List.length_map, List.enum_length, fast_scan_sample_length rand]
  cases hx : (randomSample rand 0 (min 20 COMMON_PORTS.length) COMMON_PORTS).enum.map
      (fun ip => make_log (ts ip.1) (sp ip.1) (rt ip.1) src_ip ip.2 log_format true) with
  | nil => rw [hx] at hl20; exact absurd hl20 (by decide)
  | cons a as => exact ⟨a, as, rfl⟩

theorem fast_scan_nonneg_stats (net : String → Option String) (rand : Nat → Nat)
    (ts : Nat → String) (sp rt : Nat → Nat) (host : String) (port : Nat)
    (src_ip log_format : String) (delay : Rat) (verbose : Bool)
    (hd : 0 ≤ delay) (hnet : ∀ p2, net p2 = none) :
    (test_fast_scan net rand ts sp rt host port src_ip log_format delay
        false verbose).sends
      = (test_fast_scan net rand ts sp rt host port src_ip log_format delay
          false verbose).logs.map (fun log => log ++ "\n") ∧
    (test_fast_scan net rand ts sp rt host port src_ip log_format delay
        false verbose).sends.length = 20 ∧
    (test_fast_scan net rand ts sp rt host port src_ip log_format delay
        false verbose).sleeps = List.replicate 20 delay ∧
    (test_fast_scan net rand ts sp rt host port src_ip log_format delay
        false verbose).error = none := by
  dsimp only [test_fast_scan]
  rw [dispatch_loop_nonneg net host port delay verbose hd]
  dsimp only
  have hl20 : ((randomSample rand 0 (min 20 COMMON_PORTS.length) COMMON_PORTS).enum.map
      (fun ip => make_log (ts ip.1) (sp ip.1) (rt ip.1) src_ip ip.2 log_format true)).length
      = 20 := by
    rw [List.length_map, List.enum_length, fast_scan_sample_length rand]
  refine ⟨sends_flatten_accept net host port verbose _ hnet, ?_, ?_, rfl⟩
  · rw [sends_flatten_accept net host port verbose _ hnet, List.length_map, hl20]
  · rw [hl20]

theorem fast_scan_neg_delay_stats (net : String → Option String) (rand : Nat → Nat)
    (ts : Nat → String) (sp rt : Nat → Nat) (host : String) (port : Nat)
    (src_ip log_format : String) (delay : Rat) (verbose : Bool)
    (hd : delay < 0) (hnet : ∀ p2, net p2 = none) :
    (test_fast_scan net rand ts sp rt host port src_ip log_format delay
        false verbose).sends.length = 1 ∧
    (test_fast_scan net rand ts sp rt host port src_ip log_format delay
        false verbose).error
      = some "ValueError: sleep length must be non-negative" := by
  obtain ⟨l0, rest, hcons⟩ := fast_scan_logs_cons rand ts sp rt src_ip log_format
  dsimp only [test_fast_scan]
  rw [hcons, dispatch_loop_neg net host port delay verbose hd l0 rest]
  dsimp only
  constructor
  · simp [send_udp_accept net host port l0 verbose (hnet _)]
  · rfl

/-- C2 counterexample: at the concrete invocation with delay = -1 and
coalesce = false, under a transport that accepts every payload, the
fast-scan scenario delivers exactly one datagram — neither 20 individual
datagrams nor 1 coalesced datagram of 20 records — because `time.sleep(-1)`
raises `ValueError` after the first send. -/
theorem fast_scan_negative_delay_cex :
    (test_fast_scan (fun _ => none) (fun _ => 0) (fun _ => "Sep 03 15:12:20")
        (fun _ => 1352) (fun _ => 0) "127.0.0.1" 5555 "192.168.11.7" "gaia"
        (-1) false false).sends.length = 1 ∧
    (test_fast_scan (fun _ => none) (fun _ => 0) (fun _ => "Sep 03 15:12:20")
        (fun _ => 1352) (fun _ => 0) "127.0.0.1" 5555 "192.168.11.7" "gaia"
        (-1) false false).error
      = some "ValueError: sleep length must be non-negative" := by
  constructor
  · decide
  · decide

/-- C2 (amended): the fast-scan scenario draws exactly 20 distinct ports
without replacement from `COMMON_PORTS` and renders one blocking-action
(`drop=True`) record per port in the selected format; under a transport
that accepts every payload the records are delivered as 1 coalesced
datagram holding the 20 newline-joined records, or — when the configured
inter-send delay is non-negative, as the sleep primitive requires — as 20
individual datagrams with the delay slept after each; at a negative delay
only the first datagram is delivered before `time.sleep` raises
`ValueError`. -/
theorem fast_scan_twenty_ports (net : String → Option String) (rand : Nat → Nat)
    (ts : Nat → String) (sp rt : Nat → Nat) (host : String) (port : Nat)
    (src_ip log_format : String) (delay : Rat) (coalesce verbose : Bool)
    (hnet : ∀ p2, net p2 = none) :
    (test_fast_scan net rand ts sp rt host port src_ip log_format delay
        coalesce verbose).ports.length = 20 ∧
    (test_fast_scan net rand ts sp rt host port src_ip log_format delay
        coalesce verbose).ports.Nodup ∧
    (∀ p2 ∈ (test_fast_scan net rand ts sp rt host port src_ip log_format delay
        coalesce verbose).ports, p2 ∈ COMMON_PORTS) ∧
    (test_fast_scan net rand ts sp rt host port src_ip log_format delay
          coalesce verbose).logs
      = (test_fast_scan net rand ts sp rt host port src_ip log_format delay
          coalesce verbose).ports.enum.map (fun ip =>
            make_log (ts ip.1) (sp ip.1) (rt ip.1) src_ip ip.2 log_format true) ∧
    (coalesce = true →
      (test_fast_scan net rand ts sp rt host port src_ip log_format delay
          coalesce verbose).sends
        = [joinNl (test_fast_scan net rand ts sp rt host port src_ip log_format
            delay coalesce verbose).logs ++ "\n"]) ∧
    (coalesce = false → 0 ≤ delay →
      (test_fast_scan net rand ts sp rt host port src_ip log_format delay
          coalesce verbose).sends
        = (test_fast_scan net rand ts sp rt host port src_ip log_format delay
            coalesce verbose).logs.map (fun log => log ++ "\n") ∧
      (test_fast_scan net rand ts sp rt host port src_ip log_format delay
          coalesce verbose).sends.length = 20 ∧
      (test_fast_scan net rand ts sp rt host port src_ip log_format delay
          coalesce verbose).sleeps = List.replicate 20 delay ∧
      (test_fast_scan net rand ts sp rt host port src_ip log_format delay
          coalesce verbose).error = none) ∧
    (coalesce = false → delay < 0 →
      (test_fast_scan net rand ts sp rt host port src_ip log_format delay
          coalesce verbose).sends.length = 1 ∧
      (test_fast_scan net rand ts sp rt host port src_ip log_format delay
          coalesce verbose).error
        = some "ValueError: sleep length must be non-negative") := by
  have hports := test_fast_scan_ports net rand ts sp rt host port src_ip
    log_format delay coalesce verbose
  refine ⟨?_, ?_, ?_, ?_, ?_, ?_, ?_⟩
  · rw [hports]
    exact fast_scan_sample_length rand
  · rw [hports]
    exact randomSample_nodup rand _ 0 COMMON_PORTS (by decide)
  · rw [hports]
    exact fun p2 hp2 => randomSample_subset rand _ 0 COMMON_PORTS p2 hp2
  · cases coalesce <;> rfl
  · intro hc
    subst hc
    dsimp only [test_fast_scan]
    rw [send_udp_coalesced_accept net host port _ verbose (hnet _)]
  · intro hc hd
    subst hc
    exact fast_scan_nonneg_stats net rand ts sp rt host port src_ip log_format
      delay verbose hd hnet
  · intro hc hd
    subst hc
    exact fast_scan_neg_delay_stats net rand ts sp rt host port src_ip log_format
      delay verbose hd hnet

theorem fast_scan_twenty_ports_witness :
    (test_fast_scan (fun _ => none) (fun _ => 0) (fun _ => "Sep 03 15:12:20")
        (fun _ => 1352) (fun _ => 0) "127.0.0.1" 5555 "192.168.11.7" "gaia"
        (1 / 20) false false).ports.length = 20 ∧
    (test_fast_scan (fun _ => none) (fun _ => 0) (fun _ => "Sep 03 15:12:20")
        (fun _ => 1352) (fun _ => 0) "127.0.0.1" 5555 "192.168.11.7" "gaia"
        (1 / 20) false false).ports.Nodup ∧
    (∀ p2 ∈ (test_fast_scan (fun _ => none) (fun _ => 0) (fun _ => "Sep 03 15:12:20")
        (fun _ => 1352) (fun _ => 0) "127.0.0.1" 5555 "192.168.11.7" "gaia"
        (1 / 20) false false).ports, p2 ∈ COMMON_PORTS) ∧
    (test_fast_scan (fun _ => none) (fun _ => 0) (fun _ => "Sep 03 15:12:20")
        (fun _ => 1352) (fun _ => 0) "127.0.0.1" 5555 "192.168.11.7" "gaia"
        (1 / 20) false false).logs
      = (test_fast_scan (fun _ => none) (fun _ => 0) (fun _ => "Sep 03 15:12:20")
        (fun _ => 1352) (fun _ => 0) "127.0.0.1" 5555 "192.168.11.7" "gaia"
        (1 / 20) false false).ports.enum.map (fun ip =>
          make_log ((fun _ => "Sep 03 15:12:20") ip.1) ((fun _ => 1352) ip.1)
            ((fun _ => 0) ip.1) "192.168.11.7" ip.2 "gaia" true) ∧
    (false = true →
      (test_fast_scan (fun _ => none) (fun _ => 0) (fun _ => "Sep 03 15:12:20")
        (fun _ => 1352) (fun _ => 0) "127.0.0.1" 5555 "192.168.11.7" "gaia"
        (1 / 20) false false).sends
        = [joinNl (test_fast_scan (fun _ => none) (fun _ => 0)
            (fun _ => "Sep 03 15:12:20") (fun _ => 1352) (fun _ => 0) "127.0.0.1"
            5555 "192.168.11.7" "gaia" (1 / 20) false false).logs ++ "\n"]) ∧
    (false = false → 0 ≤ (1 / 20 : Rat) →
      (test_fast_scan (fun _ => none) (fun _ => 0) (fun _ => "Sep 03 15:12:20")
        (fun _ => 1352) (fun _ => 0) "127.0.0.1" 5555 "192.168.11.7" "gaia"
        (1 / 20) false false).sends
        = (test_fast_scan (fun _ => none) (fun _ => 0) (fun _ => "Sep 03 15:12:20")
          (fun _ => 1352) (fun _ => 0) "127.0.0.1" 5555 "192.168.11.7" "gaia"
          (1 / 20) false false).logs.map (fun log => log ++ "\n") ∧
      (test_fast_scan (fun _ => none) (fun _ => 0) (fun _ => "Sep 03 15:12:20")
        (fun _ => 1352) (fun _ => 0) "127.0.0.1" 5555 "192.168.11.7" "gaia"
        (1 / 20) false false).sends.length = 20 ∧
      (test_fast_scan (fun _ => none) (fun _ => 0) (fun _ => "Sep 03 15:12:20")
        (fun _ => 1352) (fun _ => 0) "127.0.0.1" 5555 "192.168.11.7" "gaia"
        (1 / 20) false false).sleeps = List.replicate 20 (1 / 20) ∧
      (test_fast_scan (fun _ => none) (fun _ => 0) (fun _ => "Sep 03 15:12:20")
        (fun _ => 1352) (fun _ => 0) "127.0.0.1" 5555 "192.168.11.7" "gaia"
        (1 / 20) false false).error = none) ∧
    (false = false → (1 / 20 : Rat) < 0 →
      (test_fast_scan (fun _ => none) (fun _ => 0) (fun _ => "Sep 03 15:12:20")
        (fun _ => 1352) (fun _ => 0) "127.0.0.1" 5555 "192.168.11.7" "gaia"
        (1 / 20) false false).sends.length = 1 ∧
      (test_fast_scan (fun _ => none) (fun _ => 0) (fun _ => "Sep 03 15:12:20")
        (fun _ => 1352) (fun _ => 0) "127.0.0.1" 5555 "192.168.11.7" "gaia"
        (1 / 20) false false).error
        = some "ValueError: sleep length must be non-negative") :=
  fast_scan_twenty_ports (fun _ => none) (fun _ => 0) (fun _ => "Sep 03 15:12:20")
    (fun _ => 1352) (fun _ => 0) "127.0.0.1" 5555 "192.168.11.7" "gaia"
    (1 / 20) false false (fun _ => rfl)

theorem length_filter_ok (outs : List SendOutcome) :
    ((outs.map fun o => o.ok).filter fun b => b).length
      = (outs.filter fun o => o.ok).length := by
  induction outs with
  | nil => rfl
  | cons o os ih => cases h : o.ok <;> simp [List.filter_cons, List.map_cons, h, ih]

/-- C6 counterexample: at delay = -1 with a transport whose send raises, the
failed send is recorded (result `False`) but the dispatch loop does not
continue to the next event and no sent/attempted summary is reported:
`time.sleep(-1)` raises `ValueError`, which propagates out of the
scenario. -/
theorem loop_abort_cex :
    (test_fast_scan (fun _ => some "Network is unreachable") (fun _ => 0)
        (fun _ => "Sep 03 15:12:20") (fun _ => 1352) (fun _ => 0) "127.0.0.1"
        5555 "192.168.11.7" "gaia" (-1) false false).results = [false] ∧
    (test_fast_scan (fun _ => some "Network is unreachable") (fun _ => 0)
        (fun _ => "Sep 03 15:12:20") (fun _ => 1352) (fun _ => 0) "127.0.0.1"
        5555 "192.168.11.7" "gaia" (-1) false false).summary = none ∧
    (test_fast_scan (fun _ => some "Network is unreachable") (fun _ => 0)
        (fun _ => "Sep 03 15:12:20") (fun _ => 1352) (fun _ => 0) "127.0.0.1"
        5555 "192.168.11.7" "gaia" (-1) false false).error
      = some "ValueError: sleep length must be non-negative" := by
  refine ⟨by decide, by decide, by decide⟩

/-- C6 (amended): a transport-send failure is returned as the boolean
`False` (the result is exactly "the local transport accepted the payload")
and is itself never escalated, for both dispatch entry points.  Whenever
the configured delay is non-negative — the only regime in which the sleep
primitive the loop uses succeeds — the non-coalesced fast-scan loop records
one result per event for all 20 events no matter how many sends fail,
raises nothing, and reports the number of successful sends out of the 20
attempted.  At a negative delay the loop instead aborts after the first
event because its own `time.sleep` call raises `ValueError` (not an
escalation of a send failure): one result is recorded, no summary is
reported, and the exception propagates out of the scenario. -/
theorem send_failure_contained (net : String → Option String) (rand : Nat → Nat)
    (ts : Nat → String) (sp rt : Nat → Nat) (host : String) (port : Nat)
    (src_ip log_format : String) (delay : Rat) (verbose : Bool)
    (message : String) (messages : List String) :
    (send_udp net host port message verbose).ok = (net (message ++ "\n")).isNone ∧
    (send_udp_coalesced net host port messages verbose).ok
      = (net (joinNl messages ++ "\n")).isNone ∧
    (0 ≤ delay →
      (test_fast_scan net rand ts sp rt host port src_ip log_format delay
          false verbose).results.length = 20 ∧
      (test_fast_scan net rand ts sp rt host port src_ip log_format delay
          false verbose).summary
        = some (((test_fast_scan net rand ts sp rt host port src_ip log_format
            delay false verbose).results.filter fun b => b).length, 20) ∧
      (test_fast_scan net rand ts sp rt host port src_ip log_format delay
          false verbose).error = none) ∧
    (delay < 0 →
      (test_fast_scan net rand ts sp rt host port src_ip log_format delay
          false verbose).results.length = 1 ∧
      (test_fast_scan net rand ts sp rt host port src_ip log_format delay
          false verbose).summary = none ∧
      (test_fast_scan net rand ts sp rt host port src_ip log_format delay
          false verbose).error
        = some "ValueError: sleep length must be non-negative") := by
  refine ⟨?_, ?_, fun hd => ?_, fun hd => ?_⟩
  · simp only [send_udp]
    cases h : net (message ++ "\n") <;> simp [h]
  · simp only [send_udp_coalesced]
    cases h : net (joinNl messages ++ "\n") <;> simp [h]
  · dsimp only [test_fast_scan]
    rw [dispatch_loop_nonneg net host port delay verbose hd]
    dsimp only
    refine ⟨?_, ?_, rfl⟩
    · rw [List.length_map, List.length_map, List.length_map, List.enum_length,
        fast_scan_sample_length rand]
    · rw [length_filter_ok, List.length_map, List.enum_length,
        fast_scan_sample_length rand]
  · obtain ⟨l0, rest, hcons⟩ := fast_scan_logs_cons rand ts sp rt src_ip log_format
    dsimp only [test_fast_scan]
    rw [hcons, dispatch_loop_neg net host port delay verbose hd l0 rest]
    exact ⟨rfl, rfl, rfl⟩

theorem send_failure_contained_witness :
    ((send_udp (fun _ => (none : Option String)) "127.0.0.1" 5555 "msg" false).ok
      = (((fun _ => (none : Option String)) : String → Option String)
          ("msg" ++ "\n")).isNone) ∧
    ((send_udp_coalesced (fun _ => (none : Option String)) "127.0.0.1" 5555
        [] false).ok
      = (((fun _ => (none : Option String)) : String → Option String)
          (joinNl [] ++ "\n")).isNone) ∧
    (0 ≤ (1 / 20 : Rat) →
      (test_fast_scan (fun _ => none) (fun _ => 0) (fun _ => "Sep 03 15:12:20")
          (fun _ => 1352) (fun _ => 0) "127.0.0.1" 5555 "192.168.11.7" "gaia"
          (1 / 20) false false).results.length = 20 ∧
      (test_fast_scan (fun _ => none) (fun _ => 0) (fun _ => "Sep 03 15:12:20")
          (fun _ => 1352) (fun _ => 0) "127.0.0.1" 5555 "192.168.11.7" "gaia"
          (1 / 20) false false).summary
        = some (((test_fast_scan (fun _ => none) (fun _ => 0)
            (fun _ => "Sep 03 15:12:20") (fun _ => 1352) (fun _ => 0) "127.0.0.1"
            5555 "192.168.11.7" "gaia" (1 / 20) false
            false).results.filter fun b => b).length, 20) ∧
      (test_fast_scan (fun _ => none) (fun _ => 0) (fun _ => "Sep 03 15:12:20")
          (fun _ => 1352) (fun _ => 0) "127.0.0.1" 5555 "192.168.11.7" "gaia"
          (1 / 20) false false).error = none) ∧
    ((1 / 20 : Rat) < 0 →
      (test_fast_scan (fun _ => none) (fun _ => 0) (fun _ => "Sep 03 15:12:20")
          (fun _ => 1352) (fun _ => 0) "127.0.0.1" 5555 "192.168.11.7" "gaia"
          (1 / 20) false false).results.length = 1 ∧
      (test_fast_scan (fun _ => none) (fun _ => 0) (fun _ => "Sep 03 15:12:20")
          (fun _ => 1352) (fun _ => 0) "127.0.0.1" 5555 "192.168.11.7" "gaia"
          (1 / 20) false false).summary = none ∧
      (test_fast_scan (fun _ => none) (fun _ => 0) (fun _ => "Sep 03 15:12:20")
          (fun _ => 1352) (fun _ => 0) "127.0.0.1" 5555 "192.168.11.7" "gaia"
          (1 / 20) false false).error
        = some "ValueError: sleep length must be non-negative") :=
  send_failure_contained (fun _ => none) (fun _ => 0) (fun _ => "Sep 03 15:12:20")
    (fun _ => 1352) (fun _ => 0) "127.0.0.1" 5555 "192.168.11.7" "gaia" (1 / 20)
    false "msg" []

/-- C7: in one run of a scan scenario the destination ports are drawn
without replacement from the scenario's candidate pool: the fast-scan ports
are distinct members of `COMMON_PORTS` and the slow-scan ports are distinct
members of `range(1, 65000)`. -/
theorem scan_ports_nodup (net : String → Option String) (rand : Nat → Nat)
    (ts : Nat → String) (sp rt : Nat → Nat) (host : String) (port : Nat)
    (src_ip log_format : String) (delay : Rat) (coalesce verbose : Bool) :
    (test_fast_scan net rand ts sp rt host port src_ip log_format delay
        coalesce verbose).ports.Nodup ∧
    (∀ p2 ∈ (test_fast_scan net rand ts sp rt host port src_ip log_format delay
        coalesce verbose).ports, p2 ∈ COMMON_PORTS) ∧
    (test_slow_scan net rand ts sp rt host port src_ip log_format
        verbose).ports.Nodup ∧
    (∀ p2 ∈ (test_slow_scan net rand ts sp rt host port src_ip log_format
        verbose).ports, p2 ∈ List.range' 1 64999) := by
  refine ⟨?_, ?_, ?_, ?_⟩
  · rw [test_fast_scan_ports net rand ts sp rt host port src_ip log_format delay
      coalesce verbose]
    exact randomSample_nodup rand _ 0 COMMON_PORTS (by decide)
  · rw [test_fast_scan_ports net rand ts sp rt host port src_ip log_format delay
      coalesce verbose]
    exact fun p2 hp2 => randomSample_subset rand _ 0 COMMON_PORTS p2 hp2
  · dsimp only [test_slow_scan]
    exact randomSample_nodup rand 35 0 _ (List.nodup_range' 1 64999)
  · dsimp only [test_slow_scan]
    exact fun p2 hp2 => randomSample_subset rand 35 0 _ p2 hp2

/-- C3 counterexample: with invalid scenario parameters — the unknown
format "syslog" and the non-positive delay 0 — the core neither rejects the
parameters nor stops before transmitting: the fast-scan scenario transmits
all 20 records and completes without error (delay 0 is legal for
`time.sleep`), and the factory silently falls back to the native Gaia
renderer for the unknown format. -/
theorem invalid_params_cex :
    (test_fast_scan (fun _ => none) (fun _ => 0) (fun _ => "Sep 03 15:12:20")
        (fun _ => 1352) (fun _ => 0) "127.0.0.1" 5555 "192.168.11.7" "syslog"
        0 false false).sends.length = 20 ∧
    (test_fast_scan (fun _ => none) (fun _ => 0) (fun _ => "Sep 03 15:12:20")
        (fun _ => 1352) (fun _ => 0) "127.0.0.1" 5555 "192.168.11.7" "syslog"
        0 false false).error = none ∧
    make_log "Sep 03 15:12:20" 1352 0 "192.168.11.7" 22 "syslog" true
      = make_gaia_drop_log "Sep 03 15:12:20" 1352 "192.168.11.7" 22 := by
  refine ⟨by decide, by decide, rfl⟩

/-- C3 (amended): the core performs no scenario-parameter validation before
transmitting.  An unknown format variant is not rejected: `make_log` falls
back silently to the native (Gaia) renderer and the records are rendered
and sent.  A non-positive delay is not rejected either: at delay 0 the
fast-scan loop transmits all 20 records, and at a negative delay the first
record is still transmitted before `time.sleep` raises `ValueError` — in no
case does rejection precede transmission.  (Unknown format values are
refused only by the out-of-scope CLI argument parser.) -/
theorem invalid_params_not_rejected (ts0 : String) (sp0 rt0 : Nat)
    (src_ip0 : String) (dst_port0 : Nat) (fmt : String) (drop : Bool)
    (net : String → Option String) (rand : Nat → Nat) (ts : Nat → String)
    (sp rt : Nat → Nat) (host : String) (port : Nat) (src_ip : String)
    (delay : Rat) (verbose : Bool)
    (hfmt : fmt ≠ "cef") (hnet : ∀ p2, net p2 = none) :
    make_log ts0 sp0 rt0 src_ip0 dst_port0 fmt drop
      = (if drop then make_gaia_drop_log ts0 sp0 src_ip0 dst_port0
         else make_gaia_accept_log ts0 sp0 src_ip0 dst_port0) ∧
    (0 ≤ delay →
      (test_fast_scan net rand ts sp rt host port src_ip fmt delay
          false verbose).sends.length = 20) ∧
    (delay < 0 →
      (test_fast_scan net rand ts sp rt host port src_ip fmt delay
          false verbose).sends.length = 1) := by
  refine ⟨by simp [make_log, hfmt], fun hd => ?_, fun hd => ?_⟩
  · exact (fast_scan_nonneg_stats net rand ts sp rt host port src_ip fmt delay
      verbose hd hnet).2.1
  · exact (fast_scan_neg_delay_stats net rand ts sp rt host port src_ip fmt delay
      verbose hd hnet).1

theorem invalid_params_not_rejected_witness :
    (make_log "Sep 03 15:12:20" 1352 0 "192.168.11.7" 22 "syslog" true
      = (if true then make_gaia_drop_log "Sep 03 15:12:20" 1352 "192.168.11.7" 22
         else make_gaia_accept_log "Sep 03 15:12:20" 1352 "192.168.11.7" 22)) ∧
    ((0 : Rat) ≤ 0 →
      (test_fast_scan (fun _ => none) (fun _ => 0) (fun _ => "Sep 03 15:12:20")
          (fun _ => 1352) (fun _ => 0) "127.0.0.1" 5555 "192.168.11.7" "syslog"
          0 false false).sends.length = 20) ∧
    ((0 : Rat) < 0 →
      (test_fast_scan (fun _ => none) (fun _ => 0) (fun _ => "Sep 03 15:12:20")
          (fun _ => 1352) (fun _ => 0) "127.0.0.1" 5555 "192.168.11.7" "syslog"
          0 false false).sends.length = 1) :=
  invalid_params_not_rejected "Sep 03 15:12:20" 1352 0 "192.168.11.7" 22 "syslog"
    true (fun _ => none) (fun _ => 0) (fun _ => "Sep 03 15:12:20") (fun _ => 1352)
    (fun _ => 0) "127.0.0.1" 5555 "192.168.11.7" 0 false (by decide)
    (fun _ => rfl)

/-- C8 counterexample: when the composite mode is invoked with the
caller-supplied source identity `192.168.1.1`, the three sub-scenarios do
not use pairwise distinct simulated source identities — the fast-scan
sub-scenario reuses the identity hard-coded for the below-threshold
sub-scenario. -/
theorem all_mode_identities_cex :
    ¬ (((run_all (fun _ => none) (fun _ => 0) (fun _ => "Sep 03 15:12:20")
        (fun _ => 1352) (fun _ => 0) "127.0.0.1" 5555 "192.168.1.1" "gaia"
        (1 / 20) false false).map fun e => e.2.1).Pairwise
          fun a b => a ≠ b) := by
  intro hpw
  rcases List.pairwise_cons.mp hpw with ⟨hhead, _⟩
  exact hhead "192.168.1.1" (by simp [run_all]) rfl

/-- C8 amended: the composite mode always runs the below-threshold scenario
with identity `192.168.1.1`, then the non-alerting-action scenario with
`192.168.1.2`, then the fast-scan scenario with the caller-supplied
identity, in that order; the three identities are pairwise distinct
whenever the caller-supplied identity differs from the two hard-coded
ones (as it does for the default `192.168.11.7`). -/
theorem all_mode_order (net : String → Option String) (rand : Nat → Nat)
    (ts : Nat → String) (sp rt : Nat → Nat) (host : String) (port : Nat)
    (src_ip log_format : String) (delay : Rat) (coalesce verbose : Bool)
    (h1 : src_ip ≠ "192.168.1.1") (h2 : src_ip ≠ "192.168.1.2") :
    ((run_all net rand ts sp rt host port src_ip log_format delay coalesce
        verbose).map fun e => (e.1, e.2.1))
      = [(ScenTag.normal, "192.168.1.1"), (ScenTag.cefNormal, "192.168.1.2"),
         (ScenTag.fastScan, src_ip)] ∧
    (((run_all net rand ts sp rt host port src_ip log_format delay coalesce
        verbose).map fun e => e.2.1).Pairwise fun a b => a ≠ b) := by
  constructor
  · rfl
  · dsimp only [run_all, List.map_cons, List.map_nil]
    refine List.Pairwise.cons ?_ (List.Pairwise.cons ?_
      (List.Pairwise.cons ?_ List.Pairwise.nil))
    · intro b hb
      rcases List.mem_cons.mp hb with rfl | hb2
      · decide
      · rcases List.mem_cons.mp hb2 with rfl | hb3
        · exact fun h => h1 h.symm
        · cases hb3
    · intro b hb
      rcases List.mem_cons.mp hb with rfl | hb2
      · exact fun h => h2 h.symm
      · cases hb2
    · intro b hb
      cases hb

theorem all_mode_order_witness :
    (((run_all (fun _ => none) (fun _ => 0) (fun _ => "Sep 03 15:12:20")
        (fun _ => 1352) (fun _ => 0) "127.0.0.1" 5555 "192.168.11.7" "gaia"
        (1 / 20) false false).map fun e => (e.1, e.2.1))
      = [(ScenTag.normal, "192.168.1.1"), (ScenTag.cefNormal, "192.168.1.2"),
         (ScenTag.fastScan, "192.168.11.7")]) ∧
    (((run_all (fun _ => none) (fun _ => 0) (fun _ => "Sep 03 15:12:20")
        (fun _ => 1352) (fun _ => 0) "127.0.0.1" 5555 "192.168.11.7" "gaia"
        (1 / 20) false false).map fun e => e.2.1).Pairwise fun a b => a ≠ b) :=
  all_mode_order (fun _ => none) (fun _ => 0) (fun _ => "Sep 03 15:12:20")
    (fun _ => 1352) (fun _ => 0) "127.0.0.1" 5555 "192.168.11.7" "gaia"
    (1 / 20) false false (by decide) (by decide)

/-- One decimal digit character (the low decimal digit of `d`). -/
def digitCh (d : Nat) : Char :=
  match d % 10 with
  | 0 => '0' | 1 => '1' | 2 => '2' | 3 => '3' | 4 => '4'
  | 5 => '5' | 6 => '6' | 7 => '7' | 8 => '8' | _ => '9'

/-- Two-digit zero-padded decimal rendering, as `%d`, `%H`, `%M`, `%S`. -/
def pad2 (n : Nat) : String := String.mk [digitCh (n / 10), digitCh n]

/-- The `%b` month abbreviations of the C locale. -/
def monthNames : List String :=
  ["Jan", "Feb", "Mar", "Apr", "May", "Jun",
   "Jul", "Aug", "Sep", "Oct", "Nov", "Dec"]

def monthAbbr (m : Nat) : String := monthNames.getD (m - 1) "Jan"

/-- Model of `datetime.now().strftime("%b %d %H:%M:%S")`: the syslog
timestamp the renderers prepend. -/
def strftimeTs (month day hour minute second : Nat) : String :=
  monthAbbr month ++ " " ++ pad2 day ++ " " ++ pad2 hour ++ ":" ++
    pad2 minute ++ ":" ++ pad2 second

theorem data_mk (l : List Char) : (String.mk l).data = l := rfl

theorem digitCh_ne_C (d : Nat) : digitCh d ≠ 'C' := by
  unfold digitCh
  split <;> decide

theorem not_mem_append2 {c : Char} {xs ys : List Char}
    (hx : c ∉ xs) (hy : c ∉ ys) : c ∉ xs ++ ys := by
  intro h
  rcases List.mem_append.mp h with h | h
  · exact hx h
  · exact hy h

theorem C_not_mem_getD (l : List String) (n : Nat) (d : String)
    (hl : ∀ s ∈ l, 'C' ∉ s.data) (hd : 'C' ∉ d.data) :
    'C' ∉ (l.getD n d).data := by
  induction l generalizing n with
  | nil => simpa [List.getD] using hd
  | cons a as ih =>
    cases n with
    | zero => simpa [List.getD] using hl a (List.mem_cons_self a as)
    | succ k =>
      simpa [List.getD] using
        ih k (fun s hs => hl s (List.mem_cons_of_mem _ hs))

theorem C_not_mem_monthAbbr (m : Nat) : 'C' ∉ (monthAbbr m).data := by
  unfold monthAbbr
  exact C_not_mem_getD monthNames (m - 1) "Jan" (by decide) (by decide)

theorem C_not_mem_pad2 (n : Nat) : 'C' ∉ (pad2 n).data := by
  intro h
  rw [pad2, data_mk] at h
  rcases List.mem_cons.mp h with h1 | h2
  · exact digitCh_ne_C (n / 10) h1.symm
  · rcases List.mem_cons.mp h2 with h3 | h4
    · exact digitCh_ne_C n h3.symm
    · exact absurd h4 (List.not_mem_nil _)

theorem C_not_mem_strftimeTs (month day hour minute second : Nat) :
    'C' ∉ (strftimeTs month day hour minute second).data := by
  unfold strftimeTs
  simp only [String.data_append]
  exact not_mem_append2 (not_mem_append2 (not_mem_append2 (not_mem_append2
    (not_mem_append2 (not_mem_append2 (not_mem_append2 (not_mem_append2
      (C_not_mem_monthAbbr month) (by decide)) (C_not_mem_pad2 day))
      (by decide)) (C_not_mem_pad2 hour)) (by decide)) (C_not_mem_pad2 minute))
      (by decide)) (C_not_mem_pad2 second)

/-- The search a correct downstream consumer performs: index of the first
occurrence of `pat` in the text, as Python `str.find` (restricted to the
occurrence case). -/
def findSub (pat : List Char) : List Char → Option Nat
  | [] => if List.isPrefixOf pat ([] : List Char) then some 0 else none
  | c :: cs =>
    if List.isPrefixOf pat (c :: cs) then some 0
    else Option.map (fun n => n + 1) (findSub pat cs)

theorem findSub_append (pat : List Char) (hpat : pat ≠ []) :
    ∀ xs ys : List Char,
      (∀ i, i < xs.length → ¬ pat <+: (xs.drop i ++ ys)) →
      pat <+: ys →
      findSub pat (xs ++ ys) = some xs.length := by
  intro xs
  induction xs with
  | nil =>
    intro ys hocc hhit
    rw [List.nil_append]
    cases ys with
    | nil => exact absurd (List.prefix_nil.mp hhit) hpat
    | cons c cs =>
      have hp : List.isPrefixOf pat (c :: cs) = true :=
        List.isPrefixOf_iff_prefix.mpr hhit
      simp [findSub, hp]
  | cons x xs ih =>
    intro ys hocc hhit
    have h0 : ¬ pat <+: (x :: (xs ++ ys)) := by
      have h := hocc 0 (by simp)
      simpa using h
    have hpf : ¬ List.isPrefixOf pat (x :: (xs ++ ys)) = true :=
      fun hh => h0 ( List.isPrefixOf_iff_prefix.mp hh)
    show findSub pat (x :: (xs ++ ys)) = some (xs.length + 1)
    rw [findSub, if_neg hpf,
      ih ys (fun i hi => by simpa using hocc (i + 1) (Nat.succ_lt_succ hi)) hhit]
    rfl

theorem findSub_CEF (xs ys : List Char) (hx : 'C' ∉ xs)
    (hhit : "CEF:".data <+: ys) :
    findSub ("CEF:".data) (xs ++ ys) = some xs.length := by
  apply findSub_append ("CEF:".data) (by decide) xs ys ?_ hhit
  intro i hi hpre
  rw [List.drop_eq_getElem_cons hi, List.cons_append] at hpre
  have hsplit : "CEF:".data = 'C' :: "EF:".data := rfl
  rw [hsplit] at hpre
  rcases List.cons_prefix_cons.mp hpre with ⟨hc, _⟩
  exact hx (hc ▸ List.getElem_mem hi)

/-- The structured body of a CEF drop record: everything from the `CEF:`
marker to the end of the line. -/
def cef_drop_body (src_ip : String) (dst_port rt : Nat) : String :=
  "CEF:0|Checkpoint|VPN-1 & FireWall-1|NGX R65|firewall|" ++
    "Connection Blocked|7|" ++
    "src=" ++ src_ip ++ " dst=10.0.0.1 dpt=" ++ Nat.repr dst_port ++ " act=drop " ++
    "proto=TCP rt=" ++ Nat.repr rt

/-- The structured body of a CEF Allow record. -/
def cef_allow_body (src_ip : String) (dst_port rt : Nat) : String :=
  "CEF:0|Checkpoint|VPN-1 & FireWall-1|NGX R65|firewall|" ++
    "Connection Allowed|3|" ++
    "src=" ++ src_ip ++ " dst=10.0.0.1 dpt=" ++ Nat.repr dst_port ++ " act=Allow " ++
    "proto=TCP rt=" ++ Nat.repr rt

theorem cef_drop_body_marker (src_ip : String) (dst_port rt : Nat) :
    "CEF:".data <+: (cef_drop_body src_ip dst_port rt).data := by
  have hlit : ("CEF:0|Checkpoint|VPN-1 & FireWall-1|NGX R65|firewall|" : String).data
      = "CEF:".data ++
        ("0|Checkpoint|VPN-1 & FireWall-1|NGX R65|firewall|" : String).data := rfl
  have hb : (cef_drop_body src_ip dst_port rt).data
      = "CEF:".data ++
        (("0|Checkpoint|VPN-1 & FireWall-1|NGX R65|firewall|" : String).data ++
          (("Connection Blocked|7|" : String).data ++
            (("src=" : String).data ++
              (src_ip.data ++
                ((" dst=10.0.0.1 dpt=" : String).data ++
                  ((Nat.repr dst_port).data ++
                    ((" act=drop " : String).data ++
                      (("proto=TCP rt=" : String).data ++
                        (Nat.repr rt).data)))))))) := by
    simp [cef_drop_body, String.data_append, hlit, List.append_assoc]
  rw [hb]
  exact List.prefix_append _ _

theorem cef_allow_body_marker (src_ip : String) (dst_port rt : Nat) :
    "CEF:".data <+: (cef_allow_body src_ip dst_port rt).data := by
  have hlit : ("CEF:0|Checkpoint|VPN-1 & FireWall-1|NGX R65|firewall|" : String).data
      = "CEF:".data ++
        ("0|Checkpoint|VPN-1 & FireWall-1|NGX R65|firewall|" : String).data := rfl
  have hb : (cef_allow_body src_ip dst_port rt).data
      = "CEF:".data ++
        (("0|Checkpoint|VPN-1 & FireWall-1|NGX R65|firewall|" : String).data ++
          (("Connection Allowed|3|" : String).data ++
            (("src=" : String).data ++
              (src_ip.data ++
                ((" dst=10.0.0.1 dpt=" : String).data ++
                  ((Nat.repr dst_port).data ++
                    ((" act=Allow " : String).data ++
                      (("proto=TCP rt=" : String).data ++
                        (Nat.repr rt).data)))))))) := by
    simp [cef_allow_body, String.data_append, hlit, List.append_assoc]
  rw [hb]
  exact List.prefix_append _ _

theorem make_cef_drop_log_split (ts : String) (rt : Nat) (src_ip : String)
    (dst_port : Nat) :
    (make_cef_drop_log ts rt src_ip dst_port).data
      = (ts.data ++ (" firewall " : String).data) ++
        (cef_drop_body src_ip dst_port rt).data := by
  simp [make_cef_drop_log, cef_drop_body, String.data_append, List.append_assoc]

theorem make_cef_allow_log_split (ts : String) (rt : Nat) (src_ip : String)
    (dst_port : Nat) :
    (make_cef_allow_log ts rt src_ip dst_port).data
      = (ts.data ++ (" firewall " : String).data) ++
        (cef_allow_body src_ip dst_port rt).data := by
  simp [make_cef_allow_log, cef_allow_body, String.data_append, List.append_assoc]

/-- C5: for every CEF record (drop or Allow) rendered with the strftime
timestamp-plus-host prefix the renderer always prepends, the first
occurrence of the marker `CEF:` in the rendered line is at character
position `|timestamp| + 10`, which is strictly positive, and dropping
everything before that position recovers exactly the structured body of
the record (the marker-onward portion). -/
theorem cef_marker_not_anchored (month day hour minute second rt : Nat)
    (src_ip : String) (dst_port : Nat) :
    (findSub ("CEF:".data)
        (make_cef_drop_log (strftimeTs month day hour minute second) rt
          src_ip dst_port).data
      = some ((strftimeTs month day hour minute second).data.length + 10) ∧
     0 < (strftimeTs month day hour minute second).data.length + 10 ∧
     (make_cef_drop_log (strftimeTs month day hour minute second) rt
          src_ip dst_port).data.drop
        ((strftimeTs month day hour minute second).data.length + 10)
      = (cef_drop_body src_ip dst_port rt).data) ∧
    (findSub ("CEF:".data)
        (make_cef_allow_log (strftimeTs month day hour minute second) rt
          src_ip dst_port).data
      = some ((strftimeTs month day hour minute second).data.length + 10) ∧
     0 < (strftimeTs month day hour minute second).data.length + 10 ∧
     (make_cef_allow_log (strftimeTs month day hour minute second) rt
          src_ip dst_port).data.drop
        ((strftimeTs month day hour minute second).data.length + 10)
      = (cef_allow_body src_ip dst_port rt).data) := by
  have h10 : (" firewall " : String).data.length = 10 := rfl
  have hxs : 'C' ∉ (strftimeTs month day hour minute second).data ++
      (" firewall " : String).data :=
    not_mem_append2 (C_not_mem_strftimeTs month day hour minute second) (by decide)
  have hxl : ((strftimeTs month day hour minute second).data ++
      (" firewall " : String).data).length
      = (strftimeTs month day hour minute second).data.length + 10 := by
    rw [List.length_append, h10]
  constructor
  · refine ⟨?_, by omega, ?_⟩
    · rw [make_cef_drop_log_split,
        findSub_CEF _ _ hxs (cef_drop_body_marker src_ip dst_port rt), hxl]
    · rw [make_cef_drop_log_split, ← hxl, List.drop_left]
  · refine ⟨?_, by omega, ?_⟩
    · rw [make_cef_allow_log_split,
        findSub_CEF _ _ hxs (cef_allow_body_marker src_ip dst_port rt), hxl]
    · rw [make_cef_allow_log_split, ← hxl, List.drop_left]
